import Mathlib

/-!
Shallow embedding of the authentication / session-gating core of the
ep-frontend repository.

Sources embedded here:
- `compareVersions`, `checkApiVersion`, `checkExistingAuth`, `handleTokenSubmit`
  (enhanced AuthGuard, src/unnamed/part_001);
- the legacy AuthGuard submit handler (src/src/components/AuthGuard.js);
- the axios request / response interceptors, in both revisions found in
  src/unnamed/part_005 (the earlier one without a public-endpoint allow-list
  and the later one with `PUBLIC_ENDPOINTS`), `BASE_URL`, and
  `authAPI.validateToken` / `authAPI.setAndValidateToken`.

JavaScript-level conventions used throughout:
- `localStorage.getItem` results are `Option String` (`none` = key absent);
- JS string truthiness: a string is falsy exactly when it is empty;
- fallible async calls are modelled by explicit outcome values; the remote
  server is an oracle `String → ValidationOutcome` passed in as a parameter;
- JS `Number(...)` applied to version components is modelled on its
  decimal-integer fragment (optional sign, decimal digits, empty string is 0);
  every other form yields `none`, which stands for NaN.  Hex / float /
  exponent forms never occur in the version strings this development reasons
  about.
-/

/-- JS whitespace test used by `trim` (space, tab, newline, carriage return). -/
def jsWhitespace (c : Char) : Bool :=
  (c == ' ') || (c == '\t') || (c == '\n') || (c == '\r')

/-- Embedding of JS `String.prototype.trim`: drop whitespace at both ends. -/
def jsTrim (s : String) : String :=
  String.mk (((s.toList.dropWhile jsWhitespace).reverse.dropWhile jsWhitespace).reverse)

/-- Split a character list at every occurrence of `c` (JS `split` semantics:
the empty list yields `[[]]`, a trailing separator yields a final `[]`). -/
def splitOnCharAux (c : Char) : List Char → List (List Char)
  | [] => [[]]
  | x :: xs =>
    match splitOnCharAux c xs with
    | [] => [[x]]
    | h :: t => if x = c then [] :: h :: t else (x :: h) :: t

/-- Embedding of JS `String.prototype.split` with a single-character separator. -/
def jsSplitOn (s : String) (c : Char) : List String :=
  (splitOnCharAux c s.toList).map String.mk

/-- Embedding of JS `String.prototype.startsWith`. -/
def jsStartsWith (s pre : String) : Bool :=
  pre.toList.isPrefixOf s.toList

/-- `listContains pat l` is true when `pat` occurs contiguously inside `l`. -/
def listContains (pat : List Char) : List Char → Bool
  | [] => pat.isEmpty
  | x :: xs => pat.isPrefixOf (x :: xs) || listContains pat xs

/-- Embedding of JS `String.prototype.includes`. -/
def jsIncludes (s pat : String) : Bool :=
  listContains pat.toList s.toList

/-- Decimal digit run to a natural number; `none` when empty or non-digit. -/
def decDigits (l : List Char) : Option Nat :=
  if l.isEmpty then none
  else if l.all Char.isDigit then
    some (l.foldl (fun a c => 10 * a + (c.toNat - 48)) 0)
  else none

/-- Embedding of JS `Number(...)` on version components (decimal-integer
fragment).  `none` stands for NaN.  The empty string converts to 0, exactly
as in JS; any string that is not an optionally signed digit run is NaN. -/
def jsNumber (s : String) : Option Int :=
  match (jsTrim s).toList with
  | [] => some 0
  | '-' :: rest => (decDigits rest).map (fun n => -(n : Int))
  | '+' :: rest => (decDigits rest).map (fun n => (n : Int))
  | l => (decDigits l).map (fun n => (n : Int))

/-- `v1Parts[i] || 0` from `compareVersions` (src/unnamed/part_001):
`List.getD i none` models the JS out-of-range access yielding `undefined`,
and `Option.getD 0` models `|| 0` (`undefined` and NaN are falsy and become
0; the number 0 is falsy and stays 0; every other number is truthy). -/
def versionComponent (parts : List (Option Int)) (i : Nat) : Int :=
  (parts.getD i none).getD 0

/-- The comparison loop of `compareVersions` (src/unnamed/part_001 lines
20-26): compare components from index `i`, for `fuel` remaining positions;
the first strict inequality decides, otherwise the result is 0. -/
def compareVersionsFrom (p1 p2 : List (Option Int)) : Nat → Nat → Int
  | _, 0 => 0
  | i, fuel + 1 =>
    if versionComponent p1 i < versionComponent p2 i then -1
    else if versionComponent p2 i < versionComponent p1 i then 1
    else compareVersionsFrom p1 p2 (i + 1) fuel

/-- `compareVersions` from src/unnamed/part_001 lines 14-29. -/
def compareVersions (version1 version2 : String) : Int :=
  let v1Parts := (jsSplitOn version1 '.').map jsNumber
  let v2Parts := (jsSplitOn version2 '.').map jsNumber
  compareVersionsFrom v1Parts v2Parts 0 (max v1Parts.length v2Parts.length)

/-- `PUBLIC_ENDPOINTS` from src/unnamed/part_005 lines 211-216. -/
def PUBLIC_ENDPOINTS : List String :=
  ["/status/", "/status/metrics", "/status/kafka-details", "/status/jupyter"]

/-- `PUBLIC_ENDPOINTS.some(endpoint => url.startsWith(endpoint))`. -/
def isPublicEndpoint (url : String) : Bool :=
  PUBLIC_ENDPOINTS.any (fun endpoint => jsStartsWith url endpoint)

/-- An outbound axios request: its path and its Authorization header. -/
structure RequestConfig where
  url : String
  authorization : Option String
deriving DecidableEq, Repr

/-- Result of a request interceptor: pass the (possibly modified) config on,
or reject the request (the rejection in the source also forces a reload). -/
inductive RequestOutcome where
  | proceed (config : RequestConfig)
  | reject (message : String)
deriving DecidableEq, Repr

/-- The later request interceptor (src/unnamed/part_005 lines 219-248):
public endpoints pass through untouched; private endpoints get a
`Bearer` header when a token is stored and are rejected otherwise. -/
def requestInterceptor (storedToken : Option String) (config : RequestConfig) :
    RequestOutcome :=
  if isPublicEndpoint config.url then
    RequestOutcome.proceed config
  else
    match storedToken with
    | some authToken =>
      if authToken == "" then RequestOutcome.reject "Authentication required"
      else RequestOutcome.proceed
        { config with authorization := some ("Bearer " ++ authToken) }
    | none => RequestOutcome.reject "Authentication required"

/-- The earlier request interceptor (src/unnamed/part_005 lines 16-35):
no allow-list; every request gets the `Bearer` header when a token is
stored and is rejected otherwise. -/
def requestInterceptorEarly (storedToken : Option String) (config : RequestConfig) :
    RequestOutcome :=
  match storedToken with
  | some authToken =>
    if authToken == "" then RequestOutcome.reject "Authentication required"
    else RequestOutcome.proceed
      { config with authorization := some ("Bearer " ++ authToken) }
  | none => RequestOutcome.reject "Authentication required"

/-- The error object seen by the response interceptor:
`error.config?.url` and `error.response?.status`. -/
structure ResponseError where
  url : Option String
  status : Option Nat
deriving DecidableEq, Repr

/-- Observable effect of the response error interceptor on the browser:
the storage key after the handler, whether a reload was forced, and the
alert message shown (if any).  The interceptor always re-rejects the error
afterwards, which is not repeated here. -/
structure InterceptorEffect where
  storedToken : Option String
  reloaded : Bool
  alerted : Option String
deriving DecidableEq, Repr

/-- `PUBLIC_ENDPOINTS.some(endpoint => error.config?.url?.startsWith(endpoint))`:
a missing url makes every test falsy. -/
def errorIsPublicEndpoint (e : ResponseError) : Bool :=
  match e.url with
  | some u => isPublicEndpoint u
  | none => false

/-- The later response interceptor (src/unnamed/part_005 lines 251-279):
401 on a private path clears the token, alerts and reloads; 403 on a
private path only alerts; everything else is passed through. -/
def responseErrorInterceptor (storedToken : Option String) (e : ResponseError) :
    InterceptorEffect :=
  if !errorIsPublicEndpoint e && e.status == some 401 then
    { storedToken := none, reloaded := true,
      alerted := some "Your session has expired. Please log in again." }
  else if !errorIsPublicEndpoint e && e.status == some 403 then
    { storedToken := storedToken, reloaded := false,
      alerted := some "You do not have permission to perform this action." }
  else
    { storedToken := storedToken, reloaded := false, alerted := none }

/-- The earlier response interceptor (src/unnamed/part_005 lines 38-61):
same 401/403 handling but with no public-endpoint exemption. -/
def responseErrorInterceptorEarly (storedToken : Option String) (e : ResponseError) :
    InterceptorEffect :=
  if e.status == some 401 then
    { storedToken := none, reloaded := true,
      alerted := some "Your session has expired. Please log in again." }
  else if e.status == some 403 then
    { storedToken := storedToken, reloaded := false,
      alerted := some "You do not have permission to perform this action." }
  else
    { storedToken := storedToken, reloaded := false, alerted := none }

/-- JS `a || b` for an optional string `a` (absent and empty are falsy). -/
def jsOrString (a : Option String) (b : String) : String :=
  match a with
  | some s => if s == "" then b else s
  | none => b

/-- JS `a || b` where both operands may be absent. -/
def jsOrOption (a b : Option String) : Option String :=
  match a with
  | some s => if s == "" then b else some s
  | none => b

/-- `BASE_URL` (src/unnamed/part_005 line 199):
`process.env.REACT_APP_API_BASE_URL || '__NDP_EP_API_URL__' || 'http://localhost:8003'`,
as a function of the build-time environment variable. -/
def BASE_URL (envApiBaseUrl : Option String) : String :=
  let firstOr := jsOrString envApiBaseUrl "__NDP_EP_API_URL__"
  if firstOr == "" then "http://localhost:8003" else firstOr

/-- The user record returned by the user-info endpoint
(fields read by the repository: username, sub, roles, groups). -/
structure UserInfo where
  username : Option String
  sub : Option String
  roles : List String
  groups : List String
deriving DecidableEq, Repr

/-- An axios error as inspected by the repository:
`error.message`, `error.response?.status`, `error.code`. -/
structure JsError where
  message : String
  status : Option Nat
  code : Option String
deriving DecidableEq, Repr

/-- Outcome of `authAPI.validateToken` for a given token: the user info on
success, or the axios error on rejection. -/
inductive ValidationOutcome where
  | valid (userInfo : UserInfo)
  | invalid (e : JsError)
deriving DecidableEq, Repr

/-- A bare HTTP request as issued by `authAPI.validateToken`. -/
structure HttpRequest where
  url : String
  authorization : Option String
deriving DecidableEq, Repr

/-- The request `authAPI.validateToken` issues (src/unnamed/part_005 lines
404-418): GET `/user/info` with an explicit `Bearer` header. -/
def validateTokenRequest (token : String) : HttpRequest :=
  { url := "/user/info", authorization := some ("Bearer " ++ token) }

/-- The catch-branch message classification of `authAPI.setAndValidateToken`
(src/unnamed/part_005 lines 438-452). -/
def setAndValidateTokenError (e : JsError) : String :=
  if e.status == some 401 then "Invalid token: Authentication failed"
  else if e.status == some 403 then "Invalid token: Insufficient permissions"
  else if e.code == some "ECONNREFUSED" || jsIncludes e.message "Network Error" then
    "Cannot connect to API server"
  else
    "Token validation failed: " ++ (if e.message == "" then "Unknown error" else e.message)

/-- `authAPI.setAndValidateToken` (src/unnamed/part_005 lines 425-453) as a
state transformer on the `authToken` storage key.  The first component is
the call result (`Except.error` = the promise rejects), the second the
storage content after the call.  An empty token throws before the
`try` block, leaving storage untouched; a failed validation removes the
key; a successful validation stores the trimmed token. -/
def setAndValidateToken (storedToken : Option String) (token : String)
    (validate : String → ValidationOutcome) : Except String UserInfo × Option String :=
  if jsTrim token == "" then
    (Except.error "Invalid token: Token cannot be empty", storedToken)
  else
    match validate (jsTrim token) with
    | ValidationOutcome.valid userInfo => (Except.ok userInfo, some (jsTrim token))
    | ValidationOutcome.invalid e => (Except.error (setAndValidateTokenError e), none)

/-- Component state of the enhanced AuthGuard (src/unnamed/part_001) that
the embedded handlers touch: `isAuthenticated`, `loading`, `error` and the
token form field.  (Rendering-only state such as `showToken` is omitted.) -/
structure GuardState where
  isAuthenticated : Bool
  loading : Bool
  error : Option String
  token : String
deriving DecidableEq, Repr

/-- The catch-branch message classification of the enhanced
`handleTokenSubmit` (src/unnamed/part_001 lines 189-200). -/
def handleTokenSubmitError (message : String) : String :=
  if jsIncludes message "Invalid token" then
    "Invalid token. Please check your token and try again."
  else if jsIncludes message "Cannot connect to API" then
    "Cannot connect to API server. Please check your connection."
  else if jsIncludes message "Insufficient permissions" then
    "Token does not have sufficient permissions."
  else
    "Authentication failed: " ++ message

/-- The enhanced `handleTokenSubmit` (src/unnamed/part_001 lines 161-204):
submission delegates to `authAPI.setAndValidateToken` and only flips
`isAuthenticated` when that call succeeds. -/
def handleTokenSubmit (st : GuardState) (storedToken : Option String)
    (validate : String → ValidationOutcome) : GuardState × Option String :=
  if jsTrim st.token == "" then
    ({ st with error := some "Please enter a valid token" }, storedToken)
  else
    match setAndValidateToken storedToken (jsTrim st.token) validate with
    | (Except.ok _, storedAfter) =>
      ({ st with error := none, isAuthenticated := true, token := "" }, storedAfter)
    | (Except.error message, storedAfter) =>
      let errorMessage := if message == "" then "Token validation failed" else message
      ({ st with error := some (handleTokenSubmitError errorMessage) }, storedAfter)

/-- Component state of the legacy AuthGuard (src/src/components/AuthGuard.js). -/
structure LegacyGuardState where
  isAuthenticated : Bool
  error : Option String
  token : String
deriving DecidableEq, Repr

/-- `isValidTokenFormat` (src/src/components/AuthGuard.js lines 44-47):
any non-empty token is accepted. -/
def isValidTokenFormat (token : String) : Bool :=
  !(token == "") && !((jsTrim token).length == 0)

/-- The legacy `handleTokenSubmit` (src/src/components/AuthGuard.js lines
52-78): it stores any non-empty submitted token directly to local storage
and authenticates, without consulting the server at all (note the absence
of any validation parameter). -/
def legacyHandleTokenSubmit (st : LegacyGuardState) (storedToken : Option String) :
    LegacyGuardState × Option String :=
  if jsTrim st.token == "" then
    ({ st with error := some "Please enter a valid token" }, storedToken)
  else if !(isValidTokenFormat (jsTrim st.token)) then
    ({ st with error := some "Token cannot be empty. Please enter a valid token." },
      storedToken)
  else
    ({ st with error := none, isAuthenticated := true }, some (jsTrim st.token))

/-- `checkExistingAuth` together with its enclosing effect guard
(src/unnamed/part_001 lines 126-156).  `apiChecking` is `apiStatus.checking`:
while it is still true the effect returns immediately, touching neither the
component state nor the storage.  Otherwise a stored non-blank token is
validated through `authAPI.validateToken` (the raw token is passed, as in
the source); the returned user info is not retained. -/
def checkExistingAuth (apiChecking : Bool) (st : GuardState)
    (storedToken : Option String) (validate : String → ValidationOutcome) :
    GuardState × Option String :=
  if apiChecking then (st, storedToken)
  else
    match storedToken with
    | some existingToken =>
      if !(existingToken == "") && !(jsTrim existingToken == "") then
        match validate existingToken with
        | ValidationOutcome.valid _ =>
          ({ st with isAuthenticated := true, loading := false }, storedToken)
        | ValidationOutcome.invalid _ =>
          ({ st with
              error := some "Your session has expired. Please enter a valid token.",
              loading := false }, none)
      else ({ st with loading := false }, storedToken)
    | none => ({ st with loading := false }, storedToken)

/-- `FRONTEND_VERSION` (src/unnamed/part_001 line 6). -/
def FRONTEND_VERSION : String := "0.1.0"

/-- `MINIMUM_API_VERSION` (src/unnamed/part_001 line 7). -/
def MINIMUM_API_VERSION : String := "0.1.0"

/-- `API_VERSION_CHECK_TIMEOUT` (src/unnamed/part_001 line 8), milliseconds. -/
def API_VERSION_CHECK_TIMEOUT : Nat := 5000

/-- The body of a status-probe response, as read by `checkApiVersion`:
`response.data?.version` and `response.data?.api_version`. -/
structure StatusData where
  version : Option String
  api_version : Option String
deriving DecidableEq, Repr

/-- How the status probe settles, when it settles at all. -/
inductive ProbeResult where
  | success (data : StatusData)
  | failure (e : JsError)
deriving DecidableEq, Repr

/-- The `apiStatus` record of the enhanced AuthGuard (src/unnamed/part_001
lines 45-51). -/
structure ApiStatus where
  checking : Bool
  connected : Bool
  version : Option String
  compatible : Bool
  error : Option String
deriving DecidableEq, Repr

/-- Winner of `Promise.race([statusAPI.getStatus(), timeoutPromise])`. -/
inductive RaceOutcome where
  | fromProbe (r : ProbeResult)
  | timedOut
deriving DecidableEq, Repr

/-- The race: the probe is described by `none` (never settles) or
`some (settleTime, result)` (settles after `settleTime` ms).  The probe wins
exactly when it settles strictly before the timer fires; otherwise the
timer's rejection is what the `await` observes. -/
def raceProbeTimeout (probe : Option (Nat × ProbeResult)) (timeoutMs : Nat) :
    RaceOutcome :=
  match probe with
  | some (settleTime, r) =>
    if settleTime < timeoutMs then RaceOutcome.fromProbe r else RaceOutcome.timedOut
  | none => RaceOutcome.timedOut

/-- The rejection produced by the timeout promise
(src/unnamed/part_001 lines 64-66): `new Error('API connection timeout')`. -/
def timeoutError : JsError :=
  { message := "API connection timeout", status := none, code := none }

/-- The catch-branch classification of `checkApiVersion`
(src/unnamed/part_001 lines 98-108). -/
def checkApiVersionError (e : JsError) : String :=
  if e.message == "API connection timeout" then
    "API connection timeout - server may be down"
  else if e.status == some 401 then "API authentication required"
  else if (match e.status with | some s => decide (500 ≤ s) | none => false) then
    "API server error"
  else if e.code == some "NETWORK_ERROR" || jsIncludes e.message "Network Error" then
    "Network connection failed"
  else "Unable to connect to API"

/-- `checkApiVersion` (src/unnamed/part_001 lines 56-121) as a function of
the probe behaviour: the resulting `apiStatus` record after the effect has
run to completion. -/
def checkApiVersion (probe : Option (Nat × ProbeResult)) : ApiStatus :=
  match raceProbeTimeout probe API_VERSION_CHECK_TIMEOUT with
  | RaceOutcome.fromProbe (ProbeResult.success data) =>
    let apiVersion := jsOrString (jsOrOption data.version data.api_version) "unknown"
    let isCompatible :=
      if !(apiVersion == "unknown") then
        decide (0 ≤ compareVersions apiVersion MINIMUM_API_VERSION)
      else false
    { checking := false, connected := true, version := some apiVersion,
      compatible := isCompatible, error := none }
  | RaceOutcome.fromProbe (ProbeResult.failure e) =>
    { checking := false, connected := false, version := none, compatible := false,
      error := some (checkApiVersionError e) }
  | RaceOutcome.timedOut =>
    { checking := false, connected := false, version := none, compatible := false,
      error := some (checkApiVersionError timeoutError) }

/-- The probe settles (successfully or not) before `ms` milliseconds. -/
def settlesWithin (probe : Option (Nat × ProbeResult)) (ms : Nat) : Prop :=
  ∃ settleTime r, probe = some (settleTime, r) ∧ settleTime < ms

lemma compareVersionsFrom_self (p : List (Option Int)) :
    ∀ (fuel i : Nat), compareVersionsFrom p p i fuel = 0 := by
  intro fuel
  induction fuel with
  | zero => intro i; rfl
  | succ n ih =>
    intro i
    simp only [compareVersionsFrom]
    rw [if_neg (lt_irrefl _), if_neg (lt_irrefl _)]
    exact ih (i + 1)

lemma compareVersionsFrom_range (p1 p2 : List (Option Int)) :
    ∀ (fuel i : Nat), compareVersionsFrom p1 p2 i fuel = -1 ∨
      compareVersionsFrom p1 p2 i fuel = 0 ∨ compareVersionsFrom p1 p2 i fuel = 1 := by
  intro fuel
  induction fuel with
  | zero => intro i; right; left; rfl
  | succ n ih =>
    intro i
    simp only [compareVersionsFrom]
    split
    · left; rfl
    · split
      · right; right; rfl
      · exact ih (i + 1)

lemma getD_eq_none_of_forall_none {p : List (Option Int)}
    (h : ∀ x ∈ p, x = none) : ∀ i : Nat, p.getD i none = none := by
  induction p with
  | nil => intro i; rfl
  | cons a as ih =>
    intro i
    cases i with
    | zero =>
      rw [List.getD_cons_zero]
      exact h a (List.mem_cons_self a as)
    | succ n =>
      rw [List.getD_cons_succ]
      exact ih (fun x hx => h x (List.mem_cons_of_mem a hx)) n

lemma versionComponent_eq_zero {p : List (Option Int)}
    (h : ∀ x ∈ p, x = none) (i : Nat) : versionComponent p i = 0 := by
  unfold versionComponent
  rw [getD_eq_none_of_forall_none h i]
  rfl

lemma compareVersionsFrom_all_none {p1 p2 : List (Option Int)}
    (h1 : ∀ x ∈ p1, x = none) (h2 : ∀ x ∈ p2, x = none) :
    ∀ (fuel i : Nat), compareVersionsFrom p1 p2 i fuel = 0 := by
  intro fuel
  induction fuel with
  | zero => intro i; rfl
  | succ n ih =>
    intro i
    simp only [compareVersionsFrom]
    rw [versionComponent_eq_zero h1 i, versionComponent_eq_zero h2 i]
    rw [if_neg (lt_irrefl 0), if_neg (lt_irrefl 0)]
    exact ih (i + 1)

lemma compareVersions_eq (v1 v2 : String) :
    compareVersions v1 v2 =
      compareVersionsFrom ((jsSplitOn v1 '.').map jsNumber)
        ((jsSplitOn v2 '.').map jsNumber) 0
        (max ((jsSplitOn v1 '.').map jsNumber).length
          ((jsSplitOn v2 '.').map jsNumber).length) := rfl

/-- Claim C4 (confirmed): `compareVersions` compares component-wise with
missing components treated as zero; `compareVersions "2" "1.9" = 1` (the
first components 2 > 1 decide), it is total (the result is always one of
-1, 0, 1), and it is reflexive: `compareVersions v v = 0` for every
string `v`. -/
theorem c4_compareVersions_componentwise_total_reflexive :
    compareVersions "2" "1.9" = 1
    ∧ (∀ v : String, compareVersions v v = 0)
    ∧ (∀ v1 v2 : String, compareVersions v1 v2 = -1 ∨ compareVersions v1 v2 = 0 ∨
        compareVersions v1 v2 = 1) := by
  refine ⟨by decide, ?_, ?_⟩
  · intro v
    rw [compareVersions_eq]
    exact compareVersionsFrom_self _ _ _
  · intro v1 v2
    simp only [compareVersions_eq]
    exact compareVersionsFrom_range _ _ _ _

/-- Claim C10 counterexample: the claim says a component position where a
side is NaN contributes only an equal verdict and never decides the
ordering.  On the code, `Number("abc")` is NaN but the `|| 0` fallback
coerces it to 0, so `compareVersions "abc" "1"` is decided by that very
position and returns -1, not 0. -/
theorem c10_counterexample_nonnumeric_component_decides :
    jsNumber "abc" = none ∧ compareVersions "abc" "1" = -1
    ∧ ¬(compareVersions "abc" "1" = 0) := by
  decide

/-- Claim C10 (corrected): a non-numeric component is coerced to 0 by the
`|| 0` fallback rather than being compared as NaN.  Hence (i) when every
component of both version strings is non-numeric, `compareVersions`
returns 0; (ii) `compareVersions "abc.2" "abc.1" = 1` is decided by the
second components; but (iii) a non-numeric component compared against a
non-zero numeric one does decide the ordering: `compareVersions "abc" "1" = -1`. -/
theorem c10_amended_nan_components_coerced_to_zero :
    (∀ v1 v2 : String, (∀ s ∈ jsSplitOn v1 '.', jsNumber s = none) →
      (∀ s ∈ jsSplitOn v2 '.', jsNumber s = none) → compareVersions v1 v2 = 0)
    ∧ compareVersions "abc.2" "abc.1" = 1
    ∧ compareVersions "abc" "1" = -1 := by
  refine ⟨?_, by decide, by decide⟩
  intro v1 v2 h1 h2
  rw [compareVersions_eq]
  refine compareVersionsFrom_all_none ?_ ?_ _ _
  · intro x hx
    rcases List.mem_map.1 hx with ⟨s, hs, rfl⟩
    exact h1 s hs
  · intro x hx
    rcases List.mem_map.1 hx with ⟨s, hs, rfl⟩
    exact h2 s hs

/-- Witness for claim C10: the quantified part of the amended theorem at
the concrete all-non-numeric pair `"abc.def"` / `"x.y.z"`. -/
theorem c10_witness : compareVersions "abc.def" "x.y.z" = 0 := by
  exact c10_amended_nan_components_coerced_to_zero.1 "abc.def" "x.y.z"
    (by decide) (by decide)

/-- Claim C1 counterexample: the legacy credential form
(src/src/components/AuthGuard.js, `handleTokenSubmit`) persists any
non-empty submitted token and authenticates without consulting the server
at all — note that `legacyHandleTokenSubmit` has no validation parameter.
In particular, a token the server would reject ("badtoken" here, under any
server that rejects it) is written to the `authToken` storage, refuting
the claim that the stored-token state is never written with a token that
fails server-side validation. -/
theorem c1_counterexample_legacy_form_stores_without_validation :
    legacyHandleTokenSubmit
        { isAuthenticated := false, error := none, token := "badtoken" } none =
      ({ isAuthenticated := true, error := none, token := "badtoken" },
        some "badtoken") := by
  decide

/-- Claim C1 (corrected): in the enhanced credential form
(src/unnamed/part_001, submitting via `authAPI.setAndValidateToken`) a
submitted token is stored only after the user-info endpoint confirms it:
on failed validation the storage ends up empty and `isAuthenticated` is
unchanged, and on success the trimmed token is stored and the gate
authenticates.  The legacy form, by contrast, persists any non-empty
submitted token with no server validation. -/
theorem c1_amended_validation_gates_storage_only_in_enhanced_form :
    (∀ (st : GuardState) (storedToken : Option String)
        (validate : String → ValidationOutcome) (e : JsError) (tok : String),
      jsTrim st.token = tok → ¬(tok = "") → jsTrim tok = tok →
      validate tok = ValidationOutcome.invalid e →
      (handleTokenSubmit st storedToken validate).2 = none ∧
      (handleTokenSubmit st storedToken validate).1.isAuthenticated =
        st.isAuthenticated)
    ∧ (∀ (st : GuardState) (storedToken : Option String)
        (validate : String → ValidationOutcome) (u : UserInfo) (tok : String),
      jsTrim st.token = tok → ¬(tok = "") → jsTrim tok = tok →
      validate tok = ValidationOutcome.valid u →
      (handleTokenSubmit st storedToken validate).2 = some tok ∧
      (handleTokenSubmit st storedToken validate).1.isAuthenticated = true)
    ∧ (∀ (st : LegacyGuardState) (storedToken : Option String) (tok : String),
      jsTrim st.token = tok → ¬(tok = "") → jsTrim tok = tok →
      (legacyHandleTokenSubmit st storedToken).2 = some tok ∧
      (legacyHandleTokenSubmit st storedToken).1.isAuthenticated = true) := by
  refine ⟨?_, ?_, ?_⟩
  · intro st stored validate e tok h1 h2 h3 hv
    have hset : setAndValidateToken stored tok validate =
        (Except.error (setAndValidateTokenError e), none) := by
      simp [setAndValidateToken, h3, h2, hv]
    simp [handleTokenSubmit, h1, h2, hset]
  · intro st stored validate u tok h1 h2 h3 hv
    have hset : setAndValidateToken stored tok validate =
        (Except.ok u, some tok) := by
      simp [setAndValidateToken, h3, h2, hv]
    simp [handleTokenSubmit, h1, h2, hset]
  · intro st stored tok h1 h2 h3
    have hlen : ¬(tok.length = 0) := by
      intro h0
      apply h2
      cases tok with
      | mk data =>
        cases data with
        | nil => rfl
        | cons a as => simp [String.length] at h0
    have hfmt : isValidTokenFormat tok = true := by
      simp [isValidTokenFormat, h3, h2, hlen]
    simp [legacyHandleTokenSubmit, h1, h2, hfmt]

/-- Witness for claim C1: the amended theorem applied at concrete inputs —
a valid submission stores the token, an invalid submission with HTTP 401
leaves the storage empty. -/
theorem c1_witness :
    (handleTokenSubmit
        { isAuthenticated := false, loading := false, error := none,
          token := "goodtoken" } none
        (fun _ => ValidationOutcome.valid
          { username := some "alice", sub := none, roles := [], groups := [] })).2 =
      some "goodtoken"
    ∧ (handleTokenSubmit
        { isAuthenticated := false, loading := false, error := none,
          token := "badtoken" } (some "stored-token")
        (fun _ => ValidationOutcome.invalid
          { message := "Request failed with status code 401", status := some 401,
            code := none })).2 = none := by
  constructor
  · exact (c1_amended_validation_gates_storage_only_in_enhanced_form.2.1
      { isAuthenticated := false, loading := false, error := none, token := "goodtoken" }
      none _ { username := some "alice", sub := none, roles := [], groups := [] }
      "goodtoken" (by decide) (by decide) (by decide) rfl).1
  · exact (c1_amended_validation_gates_storage_only_in_enhanced_form.1
      { isAuthenticated := false, loading := false, error := none, token := "badtoken" }
      (some "stored-token") _
      { message := "Request failed with status code 401", status := some 401, code := none }
      "badtoken" (by decide) (by decide) (by decide) rfl).1

/-- Claim C2 counterexample: under the earlier request-interceptor
revision (src/unnamed/part_005 lines 16-35), a request to the public
status path `/status/` is sent with an `Authorization: Bearer` header
whenever a token is stored, refuting the claim that requests to paths on
the public allow-list never carry that header. -/
theorem c2_counterexample_early_interceptor_attaches_header_on_public_path :
    isPublicEndpoint "/status/" = true
    ∧ requestInterceptorEarly (some "tok")
        { url := "/status/", authorization := none } =
      RequestOutcome.proceed
        { url := "/status/", authorization := some "Bearer tok" } := by
  decide

/-- Claim C2 (corrected): under the later interceptor revision that
defines `PUBLIC_ENDPOINTS`, a request whose path is on the allow-list is
passed through with no Authorization header attached, and a request to a
private path with a non-empty stored token carries
`Authorization: Bearer <token>`.  The earlier revision attaches the header
to every request, public status paths included. -/
theorem c2_amended_allowlist_interceptor_header_discipline :
    (∀ (storedToken : Option String) (config : RequestConfig),
      isPublicEndpoint config.url = true →
      requestInterceptor storedToken config = RequestOutcome.proceed config)
    ∧ (∀ (config : RequestConfig) (t : String),
      isPublicEndpoint config.url = false → ¬(t = "") →
      requestInterceptor (some t) config =
        RequestOutcome.proceed
          { config with authorization := some ("Bearer " ++ t) }) := by
  constructor
  · intro stored config h
    simp [requestInterceptor, h]
  · intro config t h ht
    simp [requestInterceptor, h, ht]

/-- Witness for claim C2: the amended theorem applied to the public path
`/status/metrics` and the private path `/organization` with token "tok". -/
theorem c2_witness :
    requestInterceptor (some "tok") { url := "/status/metrics", authorization := none } =
      RequestOutcome.proceed { url := "/status/metrics", authorization := none }
    ∧ requestInterceptor (some "tok") { url := "/organization", authorization := none } =
      RequestOutcome.proceed
        { url := "/organization", authorization := some ("Bearer " ++ "tok") } := by
  constructor
  · exact c2_amended_allowlist_interceptor_header_discipline.1 (some "tok")
      { url := "/status/metrics", authorization := none } (by decide)
  · exact c2_amended_allowlist_interceptor_header_discipline.2
      { url := "/organization", authorization := none } "tok" (by decide) (by decide)

/-- Claim C3 (confirmed): in both interceptor revisions, a response with
HTTP status 401 to a private-path request makes the client remove the
stored token (the stored-token state is `none` afterwards), alert, and
force a full page reload. -/
theorem c3_private_401_clears_token_and_reloads :
    (∀ (storedToken : Option String) (u : String),
      isPublicEndpoint u = false →
      responseErrorInterceptor storedToken { url := some u, status := some 401 } =
        { storedToken := none, reloaded := true,
          alerted := some "Your session has expired. Please log in again." })
    ∧ (∀ (storedToken : Option String) (u : String),
      responseErrorInterceptorEarly storedToken { url := some u, status := some 401 } =
        { storedToken := none, reloaded := true,
          alerted := some "Your session has expired. Please log in again." }) := by
  constructor
  · intro stored u h
    simp [responseErrorInterceptor, errorIsPublicEndpoint, h]
  · intro stored u
    rfl

/-- Witness for claim C3: the 401 handler on the private path
`/organization` with a stored token. -/
theorem c3_witness :
    responseErrorInterceptor (some "old-token")
        { url := some "/organization", status := some 401 } =
      { storedToken := none, reloaded := true,
        alerted := some "Your session has expired. Please log in again." } := by
  exact c3_private_401_clears_token_and_reloads.1 (some "old-token") "/organization"
    (by decide)

/-- Claim C7 (confirmed): in both interceptor revisions, a response with
HTTP status 403 to a private-path request surfaces the permission-denied
alert while the stored token is left unchanged and no reload happens. -/
theorem c7_private_403_alerts_and_preserves_token :
    (∀ (storedToken : Option String) (u : String),
      isPublicEndpoint u = false →
      responseErrorInterceptor storedToken { url := some u, status := some 403 } =
        { storedToken := storedToken, reloaded := false,
          alerted := some "You do not have permission to perform this action." })
    ∧ (∀ (storedToken : Option String) (u : String),
      responseErrorInterceptorEarly storedToken { url := some u, status := some 403 } =
        { storedToken := storedToken, reloaded := false,
          alerted := some "You do not have permission to perform this action." }) := by
  constructor
  · intro stored u h
    simp [responseErrorInterceptor, errorIsPublicEndpoint, h]
  · intro stored u
    rfl

/-- Witness for claim C7: the 403 handler on the private path `/kafka`
preserves the stored token. -/
theorem c7_witness :
    responseErrorInterceptor (some "kept-token")
        { url := some "/kafka", status := some 403 } =
      { storedToken := some "kept-token", reloaded := false,
        alerted := some "You do not have permission to perform this action." } := by
  exact c7_private_403_alerts_and_preserves_token.1 (some "kept-token") "/kafka"
    (by decide)

/-- Claim C5 (confirmed): the startup status probe is raced against the
fixed `API_VERSION_CHECK_TIMEOUT` (5000 ms) timer; if the probe neither
succeeds nor fails within that window, `checkApiVersion` resolves to the
disconnected state: `checking := false`, `connected := false`, with the
timeout error message — it never stays pending. -/
theorem c5_probe_not_settling_yields_disconnected_status :
    ∀ probe : Option (Nat × ProbeResult),
      ¬ settlesWithin probe API_VERSION_CHECK_TIMEOUT →
      checkApiVersion probe =
        { checking := false, connected := false, version := none, compatible := false,
          error := some "API connection timeout - server may be down" } := by
  intro probe h
  rcases probe with _ | ⟨t, r⟩
  · rfl
  · have ht : ¬ t < API_VERSION_CHECK_TIMEOUT := by
      intro hlt
      exact h ⟨t, r, rfl, hlt⟩
    simp [checkApiVersion, raceProbeTimeout, ht]
    rfl

/-- Witness for claim C5: the theorem applied to a probe that never
settles. -/
theorem c5_witness :
    checkApiVersion none =
      { checking := false, connected := false, version := none, compatible := false,
        error := some "API connection timeout - server may be down" } := by
  refine c5_probe_not_settling_yields_disconnected_status none ?_
  intro hcon
  rcases hcon with ⟨t, r, hsome, _⟩
  exact Option.noConfusion hsome

/-- Claim C6 counterexample: the claim says the gate caches the user
identity (name, roles, groups) on validation success.  In the code
(src/unnamed/part_001 `checkExistingAuth`), the user info returned by
`authAPI.validateToken` is only logged and discarded: two validations
returning different identities produce identical gate states and storage,
so the gate retains nothing of the identity.  (A separate dashboard
component refetches `/user/info` on its own.) -/
theorem c6_counterexample_gate_retains_no_identity :
    ¬(({ username := some "alice", sub := some "sub-a", roles := ["admin"],
         groups := ["analysts"] } : UserInfo) =
       { username := some "bob", sub := none, roles := [], groups := [] })
    ∧ checkExistingAuth false
        { isAuthenticated := false, loading := true, error := none, token := "" }
        (some "tok")
        (fun _ => ValidationOutcome.valid
          { username := some "alice", sub := some "sub-a", roles := ["admin"],
            groups := ["analysts"] }) =
      checkExistingAuth false
        { isAuthenticated := false, loading := true, error := none, token := "" }
        (some "tok")
        (fun _ => ValidationOutcome.valid
          { username := some "bob", sub := none, roles := [], groups := [] }) := by
  exact ⟨by decide, rfl⟩

/-- Claim C6 (corrected): the persisted token is inspected only after the
startup probe has settled (while `apiStatus.checking` is true the effect
changes nothing); a present token is validated against the protected
`/user/info` endpoint with a `Bearer` header; validation success
transitions the gate to authenticated with the token kept in storage
(the returned identity is not cached by the gate), and validation failure
removes the token from storage and sets the session-expired message. -/
theorem c6_amended_gate_auth_flow :
    (∀ (st : GuardState) (storedToken : Option String)
        (validate : String → ValidationOutcome),
      checkExistingAuth true st storedToken validate = (st, storedToken))
    ∧ (∀ token : String, validateTokenRequest token =
        { url := "/user/info", authorization := some ("Bearer " ++ token) })
    ∧ (∀ (st : GuardState) (validate : String → ValidationOutcome)
        (tok : String) (u : UserInfo),
      ¬(tok = "") → ¬(jsTrim tok = "") →
      validate tok = ValidationOutcome.valid u →
      checkExistingAuth false st (some tok) validate =
        ({ st with isAuthenticated := true, loading := false }, some tok))
    ∧ (∀ (st : GuardState) (validate : String → ValidationOutcome)
        (tok : String) (e : JsError),
      ¬(tok = "") → ¬(jsTrim tok = "") →
      validate tok = ValidationOutcome.invalid e →
      checkExistingAuth false st (some tok) validate =
        ({ st with
            error := some "Your session has expired. Please enter a valid token.",
            loading := false }, none)) := by
  refine ⟨?_, ?_, ?_, ?_⟩
  · intro st stored validate
    rfl
  · intro token
    rfl
  · intro st validate tok u h1 h2 hv
    simp [checkExistingAuth, h1, h2, hv]
  · intro st validate tok e h1 h2 hv
    simp [checkExistingAuth, h1, h2, hv]

/-- Witness for claim C6: the amended theorem applied to an expired token
(removed from storage, session-expired message) and to a live token
(authenticated, storage kept). -/
theorem c6_witness :
    checkExistingAuth false
        { isAuthenticated := false, loading := true, error := none, token := "" }
        (some "expired-token")
        (fun _ => ValidationOutcome.invalid
          { message := "Request failed with status code 401", status := some 401,
            code := none }) =
      ({ isAuthenticated := false, loading := false,
         error := some "Your session has expired. Please enter a valid token.",
         token := "" }, none)
    ∧ checkExistingAuth false
        { isAuthenticated := false, loading := true, error := none, token := "" }
        (some "live-token")
        (fun _ => ValidationOutcome.valid
          { username := some "alice", sub := none, roles := [], groups := [] }) =
      ({ isAuthenticated := true, loading := false, error := none, token := "" },
        some "live-token") := by
  constructor
  · exact c6_amended_gate_auth_flow.2.2.2
      { isAuthenticated := false, loading := true, error := none, token := "" }
      (fun _ => ValidationOutcome.invalid
        { message := "Request failed with status code 401", status := some 401,
          code := none })
      "expired-token"
      { message := "Request failed with status code 401", status := some 401, code := none }
      (by decide) (by decide) rfl
  · exact c6_amended_gate_auth_flow.2.2.1
      { isAuthenticated := false, loading := true, error := none, token := "" }
      (fun _ => ValidationOutcome.valid
        { username := some "alice", sub := none, roles := [], groups := [] })
      "live-token"
      { username := some "alice", sub := none, roles := [], groups := [] }
      (by decide) (by decide) rfl

/-- Claim C8 counterexample: with the build-time environment variable
absent, `BASE_URL` does not evaluate to the documented default
`http://localhost:8003` — the middle operand `'__NDP_EP_API_URL__'` of the
`||` chain is a non-empty, hence truthy, string literal. -/
theorem c8_counterexample_default_unreachable :
    ¬(BASE_URL none = "http://localhost:8003") := by
  decide

/-- Claim C8 (corrected): when the environment variable is absent, the API
client base URL evaluates to the deployment placeholder
`__NDP_EP_API_URL__`; the literal `http://localhost:8003` in the source is
unreachable as written (it could only be selected after an external
deployment step rewrites the placeholder to an empty string). -/
theorem c8_amended_placeholder_is_the_fallback :
    BASE_URL none = "__NDP_EP_API_URL__" := by
  decide

/-- Claim C9 (confirmed): whenever `setAndValidateToken` is called with a
non-blank token and the server-side validation fails for any reason, the
call rejects with the classified message and the `authToken` storage key
is absent afterwards — regardless of what was stored before the call, so
a failed login attempt destroys a previously stored session token. -/
theorem c9_failed_validation_clears_any_stored_token :
    ∀ (storedToken : Option String) (token : String)
      (validate : String → ValidationOutcome) (e : JsError),
      ¬(jsTrim token = "") →
      validate (jsTrim token) = ValidationOutcome.invalid e →
      (setAndValidateToken storedToken token validate).2 = none ∧
      (setAndValidateToken storedToken token validate).1 =
        Except.error (setAndValidateTokenError e) := by
  intro stored token validate e ht hv
  simp [setAndValidateToken, ht, hv]

/-- Witness for claim C9: a previously stored valid token is destroyed by
a failed validation of a different token. -/
theorem c9_witness :
    (setAndValidateToken (some "previously-valid-token") "badtoken"
      (fun _ => ValidationOutcome.invalid
        { message := "Request failed with status code 401", status := some 401,
          code := none })).2 = none
    ∧ (setAndValidateToken (some "previously-valid-token") "badtoken"
      (fun _ => ValidationOutcome.invalid
        { message := "Request failed with status code 401", status := some 401,
          code := none })).1 =
      Except.error (setAndValidateTokenError
        { message := "Request failed with status code 401", status := some 401,
          code := none }) := by
  exact c9_failed_validation_clears_any_stored_token (some "previously-valid-token")
    "badtoken" _
    { message := "Request failed with status code 401", status := some 401, code := none }
    (by decide) rfl
